import Mathlib

/-!
Shallow embedding of the unwatched-jellyfin cleanup tool (src/index.ts) and
proofs about its reconciliation and execution logic.

Timestamps are modelled as `Int` epoch milliseconds (the source stores ISO-8601
strings and compares them lexicographically / via `Date.getTime()`, which agree
with the numeric order of the instants they denote).  JavaScript numbers used
as counters, identifiers and byte sizes are modelled as `Nat`; day thresholds
(`args.days`, which `parseInt` may make negative) as `Int`.  The HTTP gateways
(Sonarr / Radarr clients) are external collaborators: their mutating calls are
recorded as trace events and their fallible `deleteFile` operations are driven
by an environment mapping a file id to `none` (success) or `some msg` (a thrown
error carrying message `msg`).
-/

/-- The number of milliseconds in a day, `1000 * 60 * 60 * 24` from
src/index.ts line 68. -/
def msPerDay : Nat := 1000 * 60 * 60 * 24

/-- Ceiling division on naturals; models `Math.ceil(a / b)` for the
non-negative integer quantities the source divides (the float division is
exact enough on the JS date range that the rounded-up quotient agrees). -/
def ceilDivNat (a b : Nat) : Nat := (a + b - 1) / b

/-- Check that the pattern list is an initial segment of the text list. -/
def startsWithChars : List Char → List Char → Bool
  | [], _ => true
  | _ :: _, [] => false
  | a :: as, b :: bs => a == b && startsWithChars as bs

/-- Check that the pattern list occurs contiguously somewhere in the text
list. -/
def occursIn (pat : List Char) : List Char → Bool
  | [] => startsWithChars pat []
  | c :: rest => startsWithChars pat (c :: rest) || occursIn pat rest

/-- Model of JavaScript `text.includes(pat)` for strings. -/
def stringIncludes (text pat : String) : Bool :=
  occursIn pat.toList text.toList

/-- Classification of a thrown delete error as a benign "not found", from the
guard `e.message && (e.message.includes("404") || e.message.includes("does not
exist"))` (src/index.ts lines 261 and 409; an empty message is falsy in JS). -/
def isNotFoundMessage (msg : String) : Bool :=
  (msg != "") && (stringIncludes msg "404" || stringIncludes msg "does not exist")

/-- Embedding of `isOlderThan` (src/index.ts lines 64-70): absolute elapsed
time between `createdAt` and `now` in milliseconds, rounded up to whole days,
strictly greater than `days`. -/
def isOlderThan (createdAt now : Int) (days : Int) : Bool :=
  let diffTime : Nat := (now - createdAt).natAbs
  let diffDays : Nat := ceilDivNat diffTime msPerDay
  decide (days < (diffDays : Int))

/-- One episode record fetched from Jellyfin (`getAllEpisodes`), the source's
WatchRecord for the series case.  An absent `SeriesName` (falsy in the JS
grouping guard) is modelled as the empty string. -/
structure JellyfinEpisode where
  name : String
  seriesName : String
  dateCreated : Int
  played : Bool
deriving DecidableEq

/-- Insert an episode into the association list modelling the
`Map<string, Episode[]>` built at src/index.ts lines 122-130: append to the
existing entry for its series, or add a fresh singleton entry at the end. -/
def insertEp :
    List (String × List JellyfinEpisode) → JellyfinEpisode →
      List (String × List JellyfinEpisode)
  | [], ep => [(ep.seriesName, [ep])]
  | (k, eps) :: rest, ep =>
    if k = ep.seriesName then (k, eps ++ [ep]) :: rest
    else (k, eps) :: insertEp rest ep

/-- Grouping of episodes by series name (src/index.ts lines 122-130): records
with an empty/absent `seriesName` are skipped (`if (!ep.seriesName) continue`),
first-seen series order is preserved. -/
def groupEpisodes (records : List JellyfinEpisode) :
    List (String × List JellyfinEpisode) :=
  records.foldl (fun m ep => if ep.seriesName = "" then m else insertEp m ep) []

/-- One entry of `fullyUnwatchedSeries` (src/index.ts lines 143-147). -/
structure StaleSeries where
  seriesName : String
  episodeCount : Nat
  oldestDate : Int
deriving DecidableEq

/-- The `episodes.reduce((oldest, ep) => ep.dateCreated < oldest.dateCreated ?
ep : oldest)` reduction (src/index.ts lines 139-141), with the first member as
the initial accumulator. -/
def oldestEpisode (e : JellyfinEpisode) (rest : List JellyfinEpisode) :
    JellyfinEpisode :=
  rest.foldl (fun oldest ep =>
    if ep.dateCreated < oldest.dateCreated then ep else oldest) e

/-- The oldest member of a group, `none` on an empty member list (the source
guards the `reduce` behind `episodes.length > 0`). -/
def oldestOfGroup : List JellyfinEpisode → Option JellyfinEpisode
  | [] => none
  | e :: rest => some (oldestEpisode e rest)

/-- Staleness test for one group (src/index.ts lines 136-150): zero watched
members, non-empty, and the oldest member older than the threshold. -/
def staleEntryOfGroup (ageThresholdDays now : Int)
    (g : String × List JellyfinEpisode) : Option StaleSeries :=
  if (g.2.filter (fun e => e.played)).length = 0 ∧ 0 < g.2.length then
    match oldestOfGroup g.2 with
    | none => none
    | some oldest =>
      if isOlderThan oldest.dateCreated now ageThresholdDays then
        some ⟨g.1, g.2.length, oldest.dateCreated⟩
      else none
  else none

/-- The grouping-and-classification pass producing `fullyUnwatchedSeries`
(src/index.ts lines 122-150). -/
def classifyStaleSeries (records : List JellyfinEpisode)
    (ageThresholdDays now : Int) : List StaleSeries :=
  (groupEpisodes records).filterMap (staleEntryOfGroup ageThresholdDays now)

/-- The `statistics` sub-record of a Sonarr series payload. -/
structure SeriesStatistics where
  episodeFileCount : Nat
  sizeOnDisk : Nat
deriving DecidableEq

/-- One Sonarr catalog entry as used by src/index.ts (title join key, numeric
id, optional statistics). -/
structure SonarrSeries where
  title : String
  id : Nat
  statistics : Option SeriesStatistics
deriving DecidableEq

/-- Lookup in the title-keyed JS `Map` built by
`new Map(entries.map(e => [e.title, e]))` (src/index.ts lines 165-167 and
320-322).  `Map.set` overwrites, so iterating the entries with `foldl` and
keeping the latest match models `Map.get`. -/
def titleMapGet {α : Type} (titleOf : α → String) (entries : List α)
    (t : String) : Option α :=
  entries.foldl (fun acc e => if titleOf e == t then some e else acc) none

/-- One element of the `actions` array (src/index.ts lines 193-210):
`statistics?.episodeFileCount || 0` and `statistics?.sizeOnDisk || 0` are the
zero-defaulted file count and size. -/
structure SeriesAction where
  seriesTitle : String
  seriesId : Nat
  fileCount : Nat
  sizeBytes : Nat
deriving DecidableEq

/-- File count of a Sonarr entry, `s.statistics?.episodeFileCount || 0`. -/
def fileCountOf (s : SonarrSeries) : Nat :=
  (s.statistics.map (fun st => st.episodeFileCount)).getD 0

/-- Size on disk of a Sonarr entry, `s.statistics?.sizeOnDisk || 0`. -/
def sizeBytesOf (s : SonarrSeries) : Nat :=
  (s.statistics.map (fun st => st.sizeOnDisk)).getD 0

/-- The matching step for series (src/index.ts lines 175-210): look each stale
group up by name in the title map, drop unmatched groups, and build one action
per match in group order. -/
def buildSeriesActions (stale : List StaleSeries)
    (catalog : List SonarrSeries) : List SeriesAction :=
  stale.filterMap (fun g =>
    (titleMapGet (fun s => s.title) catalog g.seriesName).map (fun s =>
      ⟨s.title, s.id, fileCountOf s, sizeBytesOf s⟩))

/-- The `movieFile` sub-record of a Radarr movie payload. -/
structure RadarrMovieFile where
  id : Nat
  size : Nat
deriving DecidableEq

/-- One Radarr catalog entry as used by src/index.ts. -/
structure RadarrMovie where
  title : String
  id : Nat
  movieFile : Option RadarrMovieFile
deriving DecidableEq

/-- One element of the `movieActions` array (src/index.ts lines 346-363):
`movieFile?.id || 0` makes an absent movie file the id `0`. -/
structure MovieAction where
  movieTitle : String
  movieId : Nat
  movieFileId : Nat
  sizeBytes : Nat
deriving DecidableEq

/-- Stable insertion of an element into a list already sorted by strictly
descending key: elements with a strictly larger key stay in front, so ties
keep their original relative order. -/
def insertDescBy {α : Type} (key : α → Nat) (a : α) : List α → List α
  | [] => [a]
  | b :: rest =>
    if key a < key b then b :: insertDescBy key a rest else a :: b :: rest

/-- Stable sort by descending key, modelling the in-place
`arr.sort((a, b) => b.sizeBytes - a.sizeBytes)` of the report step
(src/index.ts lines 222-223 and 374-375); JS `Array.prototype.sort` is
stable. -/
def sortDescBy {α : Type} (key : α → Nat) : List α → List α
  | [] => []
  | a :: rest => insertDescBy key a (sortDescBy key rest)

/-- One network call issued to a catalog gateway during execution. -/
inductive GatewayCall where
  | getEpisodesBySeriesId (seriesId : Nat)
  | deleteEpisodeFile (fileId : Nat)
  | updateSeriesMonitored (seriesId : Nat) (monitored : Bool)
  | deleteMovieFile (fileId : Nat)
  | updateMovieMonitored (movieId : Nat) (monitored : Bool)
deriving DecidableEq

/-- One recorded per-file delete failure: the error path of src/index.ts line
265 / 413 logs the failing file and message in the context of the action being
processed. -/
structure PerItemError where
  title : String
  fileId : Nat
  message : String
deriving DecidableEq

/-- One Sonarr episode payload as consumed by the deletion loop:
`episodeFileId` is `none` for a JSON `null`. -/
structure SonarrEpisode where
  episodeFileId : Option Nat
deriving DecidableEq

/-- Responses of the Sonarr gateway: the episode listing per series, and for
each `deleteEpisodeFile` call either success (`none`) or a thrown error with
the given message (`some msg`). -/
structure SonarrEnv where
  episodesBySeries : Nat → List SonarrEpisode
  deleteEpisodeFileResult : Nat → Option String

/-- Responses of the Radarr gateway for `deleteMovieFile` calls. -/
structure RadarrEnv where
  deleteMovieFileResult : Nat → Option String

/-- Accumulator of the per-action file loop (src/index.ts lines 252-271):
`deletedCount`, `skippedCount`, the recorded non-benign failures, and the
calls issued so far. -/
structure FileLoopState where
  deletedCount : Nat
  skippedCount : Nat
  errs : List PerItemError
  tr : List GatewayCall
deriving DecidableEq

/-- One iteration of the per-episode delete loop (src/index.ts lines 255-271):
skip a `null`/`0` file id; otherwise attempt the delete, counting success,
treating a "not found" error as a benign skip, and recording any other error
without aborting. -/
def deleteEpisodeStep (env : SonarrEnv) (title : String)
    (st : FileLoopState) (ep : SonarrEpisode) : FileLoopState :=
  match ep.episodeFileId with
  | some fid =>
    if fid ≠ 0 then
      match env.deleteEpisodeFileResult fid with
      | none =>
        { st with deletedCount := st.deletedCount + 1,
                  tr := st.tr ++ [GatewayCall.deleteEpisodeFile fid] }
      | some msg =>
        if isNotFoundMessage msg then
          { st with skippedCount := st.skippedCount + 1,
                    tr := st.tr ++ [GatewayCall.deleteEpisodeFile fid] }
        else
          { st with errs := st.errs ++ [⟨title, fid, msg⟩],
                    tr := st.tr ++ [GatewayCall.deleteEpisodeFile fid] }
    else { st with skippedCount := st.skippedCount + 1 }
  | none => { st with skippedCount := st.skippedCount + 1 }

/-- Run state of the series execution phase (src/index.ts lines 236-284):
run-level counters `totalDeleted` and `totalSkipped`, the recorded failures,
the per-action "Deleted d files, skipped s" log lines as
(title, deletedCount, skippedCount) triples, and the call trace. -/
structure SeriesRunState where
  totalDeleted : Nat
  totalSkipped : Nat
  perItemErrors : List PerItemError
  actionLogs : List (String × Nat × Nat)
  trace : List GatewayCall
deriving DecidableEq

/-- The series run state before any action is processed. -/
def initialSeriesState : SeriesRunState := ⟨0, 0, [], [], []⟩

/-- Processing of one series action in live mode (src/index.ts lines 241-279).
With `fileCount == 0` the files are skipped, the series is unmonitored and
`totalSkipped` is incremented.  Otherwise the episodes are listed, each file
id attempted, the series unmonitored afterwards, and `deletedCount` added to
`totalDeleted`; the source adds nothing from the per-file `skippedCount` to
`totalSkipped`. -/
def processSeriesAction (env : SonarrEnv) (st : SeriesRunState)
    (a : SeriesAction) : SeriesRunState :=
  if a.fileCount = 0 then
    { st with totalSkipped := st.totalSkipped + 1,
              trace := st.trace ++ [GatewayCall.updateSeriesMonitored a.seriesId false] }
  else
    let eps := env.episodesBySeries a.seriesId
    let r := eps.foldl (deleteEpisodeStep env a.seriesTitle)
      ⟨0, 0, [], [GatewayCall.getEpisodesBySeriesId a.seriesId]⟩
    { totalDeleted := st.totalDeleted + r.deletedCount
      totalSkipped := st.totalSkipped
      perItemErrors := st.perItemErrors ++ r.errs
      actionLogs := st.actionLogs ++ [(a.seriesTitle, r.deletedCount, r.skippedCount)]
      trace := st.trace ++ r.tr ++ [GatewayCall.updateSeriesMonitored a.seriesId false] }

/-- The series execution phase (src/index.ts lines 221-285).  The report step
sorts the `actions` array in place by descending size before the mode check,
so both modes observe the sorted array; in dry-run mode no calls are made, in
live mode the sorted actions are processed sequentially. -/
def runSeriesExecution (env : SonarrEnv) (actions : List SeriesAction)
    (dryRun : Bool) : SeriesRunState :=
  let sorted := sortDescBy (fun a => a.sizeBytes) actions
  if dryRun then initialSeriesState
  else sorted.foldl (processSeriesAction env) initialSeriesState

/-- Run state of the movie execution phase (src/index.ts lines 388-422). -/
structure MovieRunState where
  totalDeleted : Nat
  totalSkipped : Nat
  perItemErrors : List PerItemError
  trace : List GatewayCall
deriving DecidableEq

/-- The movie run state before any action is processed. -/
def initialMovieState : MovieRunState := ⟨0, 0, [], []⟩

/-- Processing of one movie action in live mode (src/index.ts lines 393-416).
With `movieFileId == 0` the delete is skipped and the movie unmonitored.
Otherwise the delete and the following unmonitor call sit in one `try` block:
when the delete throws, the `catch` counts a benign "not found" as skipped or
logs an error, and the unmonitor call is never made for that action. -/
def processMovieAction (env : RadarrEnv) (st : MovieRunState)
    (a : MovieAction) : MovieRunState :=
  if a.movieFileId = 0 then
    { st with totalSkipped := st.totalSkipped + 1,
              trace := st.trace ++ [GatewayCall.updateMovieMonitored a.movieId false] }
  else
    match env.deleteMovieFileResult a.movieFileId with
    | none =>
      { st with totalDeleted := st.totalDeleted + 1,
                trace := st.trace ++ [GatewayCall.deleteMovieFile a.movieFileId,
                                      GatewayCall.updateMovieMonitored a.movieId false] }
    | some msg =>
      if isNotFoundMessage msg then
        { st with totalSkipped := st.totalSkipped + 1,
                  trace := st.trace ++ [GatewayCall.deleteMovieFile a.movieFileId] }
      else
        { st with perItemErrors := st.perItemErrors ++ [⟨a.movieTitle, a.movieFileId, msg⟩],
                  trace := st.trace ++ [GatewayCall.deleteMovieFile a.movieFileId] }

/-- The movie execution phase (src/index.ts lines 373-422), with the same
in-place report sort preceding the mode check as for series. -/
def runMoviesExecution (env : RadarrEnv) (actions : List MovieAction)
    (dryRun : Bool) : MovieRunState :=
  let sorted := sortDescBy (fun a => a.sizeBytes) actions
  if dryRun then initialMovieState
  else sorted.foldl (processMovieAction env) initialMovieState

/-- The series ids of the `updateSeriesMonitored` calls in a trace, in call
order. -/
def monitoredSeriesIds (tr : List GatewayCall) : List Nat :=
  tr.filterMap (fun e =>
    match e with
    | GatewayCall.updateSeriesMonitored i _ => some i
    | _ => none)

/-- The movie ids of the `updateMovieMonitored` calls in a trace, in call
order. -/
def monitoredMovieIds (tr : List GatewayCall) : List Nat :=
  tr.filterMap (fun e =>
    match e with
    | GatewayCall.updateMovieMonitored i _ => some i
    | _ => none)

/-- Total of the `fileCount` and `sizeBytes` fields over an action list, the
sum-reductions at src/index.ts lines 212-213. -/
def aggregateImpactSeries (actions : List SeriesAction) : Nat × Nat :=
  (actions.foldl (fun s a => s + a.fileCount) 0,
   actions.foldl (fun s a => s + a.sizeBytes) 0)

/-- Sum of the lengths of all member lists of a grouping. -/
def totalGroupLen (m : List (String × List JellyfinEpisode)) : Nat :=
  (m.map (fun g => g.2.length)).sum

/-- A Radarr gateway on which every `deleteMovieFile` call throws a
"404 not found" error. -/
def envC1b : RadarrEnv := ⟨fun _ => some "404 not found"⟩

/-- One matched movie action with a non-zero file id. -/
def actC1b : MovieAction := ⟨"M", 1, 5, 100⟩

/-- A Sonarr gateway with two episode files per series, on which deleting file
10 throws a "404" error and every other delete succeeds. -/
def envC5b : SonarrEnv :=
  ⟨fun _ => [⟨some 10⟩, ⟨some 11⟩], fun fid => if fid = 10 then some "404" else none⟩

/-- One matched series action expecting two files. -/
def actC5b : SeriesAction := ⟨"S", 7, 2, 0⟩

/-- A Sonarr gateway with no episodes and always-succeeding deletes. -/
def envC2c : SonarrEnv := ⟨fun _ => [], fun _ => none⟩

/-- Two matched series actions in matching order: id 1 of size 1, then id 2 of
size 2. -/
def actsC2c : List SeriesAction := [⟨"A", 1, 1, 1⟩, ⟨"B", 2, 1, 2⟩]

/-- A catalog with two entries of the same title "X": id 1 first, id 2
second. -/
def dupCatalogC3 : List SonarrSeries := [⟨"X", 1, none⟩, ⟨"X", 2, none⟩]

/-- One stale group named "X". -/
def staleGroupC3 : List StaleSeries := [⟨"X", 1, 0⟩]

/-- One unwatched episode created long before time 0. -/
def recsC8w : List JellyfinEpisode := [⟨"e", "X", -100000000000, false⟩]

/-- A Sonarr gateway with no episodes and always-succeeding deletes. -/
def envC7s : SonarrEnv := ⟨fun _ => [], fun _ => none⟩

/-- A Radarr gateway with always-succeeding deletes. -/
def envC7r : RadarrEnv := ⟨fun _ => none⟩

/-- A series action with `fileCount = 0`. -/
def actC7s : SeriesAction := ⟨"A", 3, 0, 10⟩

/-- A movie action with `movieFileId = 0` (absent movie file). -/
def actC7m : MovieAction := ⟨"M", 4, 0, 10⟩

/-- Ceiling division exceeds `d` exactly when the dividend strictly exceeds
`d` whole divisors. -/
theorem ceilDivNat_gt_iff (x b d : Nat) (hb : 0 < b) :
    d < ceilDivNat x b ↔ d * b < x := by
  unfold ceilDivNat
  constructor
  · intro h
    have h1 : d + 1 ≤ (x + b - 1) / b := h
    have h2 : (d + 1) * b ≤ x + b - 1 := (Nat.le_div_iff_mul_le hb).mp h1
    have h3 : (d + 1) * b = d * b + b := by ring
    omega
  · intro h
    have h3 : (d + 1) * b = d * b + b := by ring
    have h2 : (d + 1) * b ≤ x + b - 1 := by omega
    exact (Nat.le_div_iff_mul_le hb).mpr h2

/-- The rounded-up day test is a strict comparison of elapsed milliseconds
against whole days. -/
theorem isOlderThan_gt_iff (createdAt now days : Int) (hd : 0 ≤ days) :
    isOlderThan createdAt now days = true ↔
      days * 86400000 < ((now - createdAt).natAbs : Int) := by
  have hb : 0 < msPerDay := by decide
  have h := ceilDivNat_gt_iff ((now - createdAt).natAbs) msPerDay days.toNat hb
  have hms : msPerDay = 86400000 := by decide
  rw [hms] at h
  simp only [isOlderThan, decide_eq_true_eq, hms]
  omega

/-- Classification of a single unwatched episode with a series name reduces to
the age test on its creation date. -/
theorem classify_singleton (e : JellyfinEpisode) (d now : Int)
    (hn : e.seriesName ≠ "") (hw : e.played = false) :
    classifyStaleSeries [e] d now =
      if isOlderThan e.dateCreated now d then
        [⟨e.seriesName, 1, e.dateCreated⟩]
      else [] := by
  simp only [classifyStaleSeries, groupEpisodes, List.foldl_cons, List.foldl_nil, if_neg hn,
    insertEp, staleEntryOfGroup, oldestOfGroup, oldestEpisode, List.filter_cons, hw,
    List.filter_nil, List.filterMap_cons, List.filterMap_nil]
  by_cases ho : isOlderThan e.dateCreated now d
  · simp [ho, List.foldl_nil]
  · simp [ho, List.foldl_nil]

/-- C4: for every non-negative day threshold d and timestamp t (milliseconds),
a fully unwatched non-empty group whose oldest creation date is one second
beyond d days before t is classified stale, and one at exactly d days before t
is not; in general the age test holds exactly when the absolute elapsed
milliseconds strictly exceed d whole days (elapsed time rounded up to days and
compared strictly with d). -/
theorem c4_staleness_boundary (d t : Int) (id name : String)
    (hd : 0 ≤ d) (hn : name ≠ "") :
    classifyStaleSeries [⟨id, name, t - (d * 86400 + 1) * 1000, false⟩] d t =
      [⟨name, 1, t - (d * 86400 + 1) * 1000⟩]
  ∧ classifyStaleSeries [⟨id, name, t - d * 86400 * 1000, false⟩] d t = []
  ∧ ∀ c : Int, isOlderThan c t d = true ↔
      d * 86400000 < ((t - c).natAbs : Int) := by
  have h1 : isOlderThan (t - (d * 86400 + 1) * 1000) t d = true := by
    rw [isOlderThan_gt_iff _ _ _ hd]
    omega
  have h2 : isOlderThan (t - d * 86400 * 1000) t d = false := by
    by_cases h : isOlderThan (t - d * 86400 * 1000) t d = true
    · rw [isOlderThan_gt_iff _ _ _ hd] at h
      omega
    · simpa using h
  refine ⟨?_, ?_, fun c => isOlderThan_gt_iff c t d hd⟩
  · rw [classify_singleton _ _ _ hn rfl, h1]
    simp
  · rw [classify_singleton _ _ _ hn rfl, h2]
    simp

/-- Witness for C4 at d = 1, t = 0, series name "X". -/
theorem c4_staleness_boundary_witness :
    (0 : Int) ≤ 1 ∧ ("X" : String) ≠ ""
  ∧ classifyStaleSeries [⟨"e", "X", (0 : Int) - ((1 : Int) * 86400 + 1) * 1000, false⟩] 1 0 =
      [⟨"X", 1, (0 : Int) - ((1 : Int) * 86400 + 1) * 1000⟩]
  ∧ classifyStaleSeries [⟨"e", "X", (0 : Int) - (1 : Int) * 86400 * 1000, false⟩] 1 0 = []
  ∧ (isOlderThan (-90000000) 0 1 = true ↔
      (1 : Int) * 86400000 < (((0 : Int) - (-90000000)).natAbs : Int)) := by
  have h := c4_staleness_boundary 1 0 "e" "X" (by decide) (by decide)
  exact ⟨by decide, by decide, h.1, h.2.1, h.2.2 (-90000000)⟩

/-- C10: the age test is symmetric in time — it compares the absolute
difference of the two instants, so a creation date y milliseconds in the
future of now is classified exactly like one y milliseconds in the past, and
a creation date more than the threshold in the future is classified as older
than the threshold. -/
theorem c10_age_test_symmetric (now y d : Int) (hd : 0 ≤ d) :
    isOlderThan (now + y) now d = isOlderThan (now - y) now d
  ∧ isOlderThan (now + (d * 86400 + 1) * 1000) now d = true := by
  constructor
  · have habs : (now - (now + y)).natAbs = (now - (now - y)).natAbs := by omega
    simp only [isOlderThan, habs]
  · rw [isOlderThan_gt_iff _ _ _ hd]
    omega

/-- Witness for C10 at now = 0, y = 5, d = 0. -/
theorem c10_age_test_symmetric_witness :
    (0 : Int) ≤ 0
  ∧ isOlderThan ((0 : Int) + 5) 0 0 = isOlderThan ((0 : Int) - 5) 0 0
  ∧ isOlderThan ((0 : Int) + ((0 : Int) * 86400 + 1) * 1000) 0 0 = true := by
  have h := c10_age_test_symmetric 0 5 0 (by decide)
  exact ⟨by decide, h.1, h.2⟩

/-- C8: every group returned by the stale classification arises from a group
of the records with zero watched members (and the reported episode count is
that group's member count) — a group with at least one watched member is never
classified stale. -/
theorem c8_stale_groups_fully_unwatched (records : List JellyfinEpisode)
    (d now : Int) (s : StaleSeries)
    (hs : s ∈ classifyStaleSeries records d now) :
    ∃ g ∈ groupEpisodes records,
      g.1 = s.seriesName ∧ (g.2.filter (fun e => e.played)).length = 0
        ∧ g.2.length = s.episodeCount := by
  simp only [classifyStaleSeries, List.mem_filterMap] at hs
  obtain ⟨g, hg, he⟩ := hs
  refine ⟨g, hg, ?_⟩
  unfold staleEntryOfGroup at he
  split at he
  case isTrue h =>
    split at he
    case h_1 => exact absurd he (by simp)
    case h_2 oldest hold =>
      split at he
      case isTrue holder =>
        obtain rfl : StaleSeries.mk g.1 g.2.length oldest.dateCreated = s :=
          Option.some.inj he
        exact ⟨rfl, h.1, rfl⟩
      case isFalse => exact absurd he (by simp)
  case isFalse => exact absurd he (by simp)

/-- Witness for C8 on a one-record input whose classification is non-empty. -/
theorem c8_stale_groups_fully_unwatched_witness :
    (⟨"X", 1, -100000000000⟩ : StaleSeries) ∈ classifyStaleSeries recsC8w 0 0
  ∧ ∃ g ∈ groupEpisodes recsC8w,
      g.1 = (⟨"X", 1, -100000000000⟩ : StaleSeries).seriesName
        ∧ (g.2.filter (fun e => e.played)).length = 0
        ∧ g.2.length = (⟨"X", 1, -100000000000⟩ : StaleSeries).episodeCount :=
  ⟨by decide, c8_stale_groups_fully_unwatched recsC8w 0 0 _ (by decide)⟩

/-- Splitting a list by a predicate partitions its length. -/
theorem length_filter_add_length_filter_not {α : Type} (l : List α)
    (p : α → Bool) :
    (l.filter p).length + (l.filter (fun x => !(p x))).length = l.length := by
  induction l with
  | nil => rfl
  | cons a t ih =>
    cases h : p a <;> simp [List.filter_cons, h] <;> omega

/-- Inserting one episode into a grouping grows the total member count by
one. -/
theorem totalGroupLen_insertEp (m : List (String × List JellyfinEpisode))
    (ep : JellyfinEpisode) :
    totalGroupLen (insertEp m ep) = totalGroupLen m + 1 := by
  induction m with
  | nil => rfl
  | cons h t ih =>
    obtain ⟨k, eps⟩ := h
    by_cases hk : k = ep.seriesName
    · simp [insertEp, hk, totalGroupLen]
      omega
    · simp only [insertEp, if_neg hk, totalGroupLen, List.map_cons, List.sum_cons]
      simp only [totalGroupLen] at ih
      omega

/-- Folding the grouping step over records adds exactly the count of records
with a non-empty series name to the total member count. -/
theorem totalGroupLen_groupEpisodes_aux :
    ∀ (records : List JellyfinEpisode) (m : List (String × List JellyfinEpisode)),
      totalGroupLen (records.foldl
          (fun m ep => if ep.seriesName = "" then m else insertEp m ep) m) =
        totalGroupLen m +
          (records.filter (fun e => decide (e.seriesName ≠ ""))).length := by
  intro records
  induction records with
  | nil => intro m; simp
  | cons e t ih =>
    intro m
    rw [List.foldl_cons]
    by_cases he : e.seriesName = ""
    · rw [if_pos he, ih]
      have hp : (decide (e.seriesName ≠ "")) = false := by simp [he]
      simp [List.filter_cons, hp]
      rw [if_pos he]
    · rw [if_neg he, ih, totalGroupLen_insertEp]
      have hp : (decide (e.seriesName ≠ "")) = true := by simp [he]
      simp [List.filter_cons, hp]
      rw [if_neg he]
      simp
      omega

/-- C9: grouping partitions exactly the records with a non-empty group key —
summing watched plus unwatched member counts over all groups gives the number
of input records whose series name is non-empty. -/
theorem c9_grouping_partition (records : List JellyfinEpisode) :
    ((groupEpisodes records).map (fun g =>
        (g.2.filter (fun e => e.played)).length +
          (g.2.filter (fun e => !e.played)).length)).sum =
      (records.filter (fun e => decide (e.seriesName ≠ ""))).length := by
  have hfun : (fun g : String × List JellyfinEpisode =>
      (g.2.filter (fun e => e.played)).length +
        (g.2.filter (fun e => !e.played)).length) =
      fun g => g.2.length := by
    funext g
    exact length_filter_add_length_filter_not g.2 (fun e => e.played)
  rw [hfun]
  have h := totalGroupLen_groupEpisodes_aux records []
  simpa [groupEpisodes, totalGroupLen] using h

/-- Searching the first match of a predicate distributes over list append. -/
theorem find_first_append {α : Type} (p : α → Bool) :
    ∀ l₁ l₂ : List α,
      List.find? p (l₁ ++ l₂) =
        match List.find? p l₁ with
        | some x => some x
        | none => List.find? p l₂ := by
  intro l₁
  induction l₁ with
  | nil => intro l₂; rfl
  | cons a l ih =>
    intro l₂
    cases hp : p a with
    | true => simp [List.find?_cons, hp]
    | false => simp [List.find?_cons, hp, ih l₂]

/-- The left fold building the title map keeps the LAST matching entry, which
is the first match of the reversed list. -/
theorem titleMapGet_foldl_aux {α : Type} (titleOf : α → String) (t : String) :
    ∀ (l : List α) (acc : Option α),
      l.foldl (fun a e => if titleOf e == t then some e else a) acc =
        match (l.reverse).find? (fun e => titleOf e == t) with
        | some x => some x
        | none => acc := by
  intro l
  induction l with
  | nil => intro acc; rfl
  | cons e rest ih =>
    intro acc
    rw [List.foldl_cons, ih, List.reverse_cons, find_first_append]
    cases hr : (rest.reverse).find? (fun e => titleOf e == t) with
    | some x => rfl
    | none =>
      cases hp : (titleOf e == t) with
      | true => simp [List.find?_cons, hp]
      | false => simp [List.find?_cons, hp]

/-- C3 amended: when the catalog contains duplicate titles, the title lookup
resolves to the entry that occurs LAST in the catalog sequence (the first
match of the reversed sequence); earlier duplicates are never selected. -/
theorem c3_last_duplicate_wins {α : Type} (titleOf : α → String)
    (entries : List α) (t : String) :
    titleMapGet titleOf entries t =
      (entries.reverse).find? (fun e => titleOf e == t) := by
  rw [titleMapGet, titleMapGet_foldl_aux]
  cases hr : (entries.reverse).find? (fun e => titleOf e == t) <;> rfl

/-- C3 counterexample: with two catalog entries titled "X" (id 1 first, id 2
second), the matching step builds the action from the LATER entry (id 2), not
from the first entry as the claim states. -/
theorem c3_duplicate_title_counterexample :
    buildSeriesActions staleGroupC3 dupCatalogC3 = [⟨"X", 2, 0, 0⟩]
  ∧ dupCatalogC3.map (fun s => s.id) = [1, 2]
  ∧ buildSeriesActions staleGroupC3 dupCatalogC3 ≠ [⟨"X", 1, 0, 0⟩] := by
  refine ⟨by decide, by decide, by decide⟩

/-- Extracting the unmonitor-call series ids distributes over trace append. -/
theorem monitoredSeriesIds_append (a b : List GatewayCall) :
    monitoredSeriesIds (a ++ b) = monitoredSeriesIds a ++ monitoredSeriesIds b :=
  List.filterMap_append a b _

/-- Extracting the unmonitor-call movie ids distributes over trace append. -/
theorem monitoredMovieIds_append (a b : List GatewayCall) :
    monitoredMovieIds (a ++ b) = monitoredMovieIds a ++ monitoredMovieIds b :=
  List.filterMap_append a b _

/-- The per-file delete loop of a series action issues no unmonitor calls. -/
theorem fileLoop_monitored (env : SonarrEnv) (title : String) :
    ∀ (eps : List SonarrEpisode) (st : FileLoopState),
      monitoredSeriesIds ((eps.foldl (deleteEpisodeStep env title) st).tr) =
        monitoredSeriesIds st.tr := by
  intro eps
  induction eps with
  | nil => intro st; rfl
  | cons e t ih =>
    intro st
    rw [List.foldl_cons, ih]
    unfold deleteEpisodeStep
    cases e.episodeFileId with
    | none => rfl
    | some fid =>
      dsimp only
      by_cases h0 : fid ≠ 0
      · rw [if_pos h0]
        cases hr : env.deleteEpisodeFileResult fid with
        | none => simp [monitoredSeriesIds_append, monitoredSeriesIds]
        | some msg =>
          by_cases hnf : isNotFoundMessage msg
          · simp [hnf, monitoredSeriesIds_append, monitoredSeriesIds]
          · simp [hnf, monitoredSeriesIds_append, monitoredSeriesIds]
      · rw [if_neg h0]

/-- Every live-mode series action appends exactly one unmonitor call, carrying
its own series id, to the trace. -/
theorem processSeriesAction_monitored (env : SonarrEnv)
    (st : SeriesRunState) (a : SeriesAction) :
    monitoredSeriesIds (processSeriesAction env st a).trace =
      monitoredSeriesIds st.trace ++ [a.seriesId] := by
  unfold processSeriesAction
  by_cases h : a.fileCount = 0
  · simp [h, monitoredSeriesIds_append, monitoredSeriesIds]
  · rw [if_neg h]
    simp only
    rw [monitoredSeriesIds_append, monitoredSeriesIds_append]
    rw [fileLoop_monitored]
    simp [monitoredSeriesIds]

/-- Folding the live series processor over an action list appends the action
ids in list order to the unmonitor-call sequence. -/
theorem foldSeries_monitored (env : SonarrEnv) :
    ∀ (l : List SeriesAction) (st : SeriesRunState),
      monitoredSeriesIds ((l.foldl (processSeriesAction env) st).trace) =
        monitoredSeriesIds st.trace ++ l.map (fun a => a.seriesId) := by
  intro l
  induction l with
  | nil => intro st; simp
  | cons a t ih =>
    intro st
    rw [List.foldl_cons, ih, processSeriesAction_monitored]
    simp

/-- A live-mode movie action appends its unmonitor call exactly when its file
id is zero or its delete succeeds. -/
theorem processMovieAction_monitored (env : RadarrEnv)
    (st : MovieRunState) (a : MovieAction) :
    monitoredMovieIds (processMovieAction env st a).trace =
      monitoredMovieIds st.trace ++
        (if decide (a.movieFileId = 0) || (env.deleteMovieFileResult a.movieFileId).isNone
          then [a.movieId] else []) := by
  unfold processMovieAction
  by_cases h : a.movieFileId = 0
  · simp [h, monitoredMovieIds_append, monitoredMovieIds]
  · rw [if_neg h]
    cases hr : env.deleteMovieFileResult a.movieFileId with
    | none =>
      simp [h, hr, monitoredMovieIds_append, monitoredMovieIds]
    | some msg =>
      by_cases hnf : isNotFoundMessage msg
      · simp [h, hr, hnf, monitoredMovieIds_append, monitoredMovieIds]
      · simp [h, hr, hnf, monitoredMovieIds_append, monitoredMovieIds]

/-- Folding the live movie processor over an action list appends, in list
order, the ids of the actions whose file id is zero or whose delete
succeeds. -/
theorem foldMovies_monitored (env : RadarrEnv) :
    ∀ (l : List MovieAction) (st : MovieRunState),
      monitoredMovieIds ((l.foldl (processMovieAction env) st).trace) =
        monitoredMovieIds st.trace ++
          ((l.filter (fun a =>
              decide (a.movieFileId = 0) ||
                (env.deleteMovieFileResult a.movieFileId).isNone)).map
            (fun a => a.movieId)) := by
  intro l
  induction l with
  | nil => intro st; simp
  | cons a t ih =>
    intro st
    rw [List.foldl_cons, ih, processMovieAction_monitored]
    by_cases hc : (decide (a.movieFileId = 0) ||
        (env.deleteMovieFileResult a.movieFileId).isNone) = true
    · simp [List.filter_cons, hc]
    · have hc2 : (decide (a.movieFileId = 0) ||
          (env.deleteMovieFileResult a.movieFileId).isNone) = false :=
        Bool.eq_false_iff.mpr hc
      simp [List.filter_cons, hc2]

/-- C2 amended: live execution iterates the actions in the order left by the
in-place report sort — descending size, stable with respect to the matching
order — not the matching order itself: the series driver issues its unmonitor
calls exactly in that sorted order, and the movie driver does so for the
sorted actions whose file id is zero or whose delete succeeds. -/
theorem c2_execution_follows_size_sorted_order (envS : SonarrEnv)
    (sa : List SeriesAction) (envR : RadarrEnv) (ma : List MovieAction) :
    monitoredSeriesIds (runSeriesExecution envS sa false).trace =
      (sortDescBy (fun a => a.sizeBytes) sa).map (fun a => a.seriesId)
  ∧ monitoredMovieIds (runMoviesExecution envR ma false).trace =
      (((sortDescBy (fun a => a.sizeBytes) ma).filter (fun a =>
          decide (a.movieFileId = 0) ||
            (envR.deleteMovieFileResult a.movieFileId).isNone)).map
        (fun a => a.movieId)) := by
  constructor
  · rw [runSeriesExecution]
    simp only [if_false, Bool.false_eq_true]
    rw [foldSeries_monitored]
    rfl
  · rw [runMoviesExecution]
    simp only [if_false, Bool.false_eq_true]
    rw [foldMovies_monitored]
    rfl

/-- C2 counterexample: two matched series actions of sizes 1 and 2 are
executed in descending-size order (ids [2, 1]), not in their matching order
(ids [1, 2]), because the report step's in-place sort reorders the array the
live loop then iterates. -/
theorem c2_execution_order_counterexample :
    monitoredSeriesIds (runSeriesExecution envC2c actsC2c false).trace = [2, 1]
  ∧ actsC2c.map (fun a => a.seriesId) = [1, 2]
  ∧ monitoredSeriesIds (runSeriesExecution envC2c actsC2c false).trace ≠
      actsC2c.map (fun a => a.seriesId) := by
  refine ⟨by decide, by decide, by decide⟩

/-- C1 evaluated at its failing input: one movie action whose file delete
throws a "404" error never reaches its unmonitor call — the trace holds only
the delete attempt, the unmonitor-call count is 0 (the claim says exactly 1),
the failure is counted as skipped and no error is recorded. -/
theorem c1_movie_delete_failure_skips_unmonitor :
    (runMoviesExecution envC1b [actC1b] false).trace = [GatewayCall.deleteMovieFile 5]
  ∧ monitoredMovieIds (runMoviesExecution envC1b [actC1b] false).trace = []
  ∧ (runMoviesExecution envC1b [actC1b] false).totalSkipped = 1
  ∧ (runMoviesExecution envC1b [actC1b] false).perItemErrors = [] := by
  refine ⟨by decide, by decide, by decide, by decide⟩

/-- C5 evaluated at its failing input (scenario D): one series action with two
file ids where the first delete throws "404" and the second succeeds. The
second file is still attempted, the trailing unmonitor call happens, the
deleted count is 1 and no error is recorded — but the run-level skipped
counter stays 0 (only the per-action log line shows skipped = 1, and the
claim says the run counter is 1), because the per-action skipped count is
never added into the run total. -/
theorem c5_scenario_d_run_counters :
    (runSeriesExecution envC5b [actC5b] false).totalDeleted = 1
  ∧ (runSeriesExecution envC5b [actC5b] false).totalSkipped = 0
  ∧ (runSeriesExecution envC5b [actC5b] false).perItemErrors = []
  ∧ (runSeriesExecution envC5b [actC5b] false).actionLogs = [("S", 1, 1)]
  ∧ (runSeriesExecution envC5b [actC5b] false).trace =
      [GatewayCall.getEpisodesBySeriesId 7, GatewayCall.deleteEpisodeFile 10,
       GatewayCall.deleteEpisodeFile 11, GatewayCall.updateSeriesMonitored 7 false] := by
  refine ⟨by decide, by decide, by decide, by decide, by decide⟩

/-- C6: in dry-run mode neither executor issues any gateway call (the trace is
empty, so in particular no deleteFile or setMonitored mutation is made) and
the deleted-file count is 0, for every action set and environment. -/
theorem c6_dry_run_no_mutations (envS : SonarrEnv) (sa : List SeriesAction)
    (envR : RadarrEnv) (ma : List MovieAction) :
    (runSeriesExecution envS sa true).trace = []
  ∧ (runSeriesExecution envS sa true).totalDeleted = 0
  ∧ (runMoviesExecution envR ma true).trace = []
  ∧ (runMoviesExecution envR ma true).totalDeleted = 0 :=
  ⟨rfl, rfl, rfl, rfl⟩

/-- C7: a live-mode action with zero files (series `fileCount == 0`, movie
`movieFileId == 0`) performs no delete, issues exactly one unmonitor call,
adds nothing to the deleted count, adds one to the skipped count and records
no error: the full state update is exactly that. -/
theorem c7_zero_file_action (envS : SonarrEnv) (st : SeriesRunState)
    (a : SeriesAction) (envR : RadarrEnv) (stm : MovieRunState)
    (m : MovieAction) :
    (a.fileCount = 0 →
      processSeriesAction envS st a =
        { st with totalSkipped := st.totalSkipped + 1,
                  trace := st.trace ++ [GatewayCall.updateSeriesMonitored a.seriesId false] })
  ∧ (m.movieFileId = 0 →
      processMovieAction envR stm m =
        { stm with totalSkipped := stm.totalSkipped + 1,
                   trace := stm.trace ++ [GatewayCall.updateMovieMonitored m.movieId false] }) := by
  constructor
  · intro h
    rw [processSeriesAction, if_pos h]
  · intro h
    rw [processMovieAction, if_pos h]

/-- Witness for C7 on concrete zero-file actions from the initial states. -/
theorem c7_zero_file_action_witness :
    actC7s.fileCount = 0 ∧ actC7m.movieFileId = 0
  ∧ processSeriesAction envC7s initialSeriesState actC7s =
      { initialSeriesState with
          totalSkipped := initialSeriesState.totalSkipped + 1,
          trace := initialSeriesState.trace ++
            [GatewayCall.updateSeriesMonitored actC7s.seriesId false] }
  ∧ processMovieAction envC7r initialMovieState actC7m =
      { initialMovieState with
          totalSkipped := initialMovieState.totalSkipped + 1,
          trace := initialMovieState.trace ++
            [GatewayCall.updateMovieMonitored actC7m.movieId false] } :=
  ⟨rfl, rfl,
    (c7_zero_file_action envC7s initialSeriesState actC7s envC7r initialMovieState actC7m).1 rfl,
    (c7_zero_file_action envC7s initialSeriesState actC7s envC7r initialMovieState actC7m).2 rfl⟩
